import Mathlib

/-!
# Verification of camera_config_hd.py

Shallow embedding of the camera registry module (`src/camera_config_hd.py`).

Modelling conventions:
* Python `dict`s are insertion-ordered association lists; `dictInsert`
  replaces an existing key in place (keeping its position) and appends a
  fresh key, matching CPython dict semantics.
* Tier-profile dicts (`{width, height, fps, format}`) are heap objects:
  the registry state carries a total heap `profHeap : Nat → Profile`
  together with an allocation counter `nextRef`.  This captures the
  object identity created by the shallow `dict.copy()` calls in the
  source (`configs[short_name] = configs["usb"].copy()` shares the
  inner tier-profile dicts with the template).
* External facilities (`v4l2-ctl --list-devices`, per-device
  `--list-formats`, `os.path.exists`) are an oracle (`ScanEnv`).
* A raised exception that escapes a modelled function is `Except.error`
  (or `none` for `Option`-valued functions); strings are treated as
  ASCII (Python `str.isdigit`/`int` Unicode extras are out of scope).
-/

namespace CameraHD

/-- Strip leading and trailing whitespace from a character list
(Python `str.strip()` on ASCII text). -/
def pyStripL (cs : List Char) : List Char :=
  ((cs.dropWhile Char.isWhitespace).reverse.dropWhile Char.isWhitespace).reverse

/-- Python `str.strip()`. -/
def pyStrip (s : String) : String := String.mk (pyStripL s.toList)

/-- Left-to-right, non-overlapping split on a separator; `fuel` is a
structural-recursion bound (call with the input length). -/
def splitSepGo (sep : List Char) : Nat → List Char → List Char → List (List Char)
  | _, [], acc => [acc.reverse]
  | 0, cs, acc => [acc.reverse ++ cs]
  | fuel + 1, c :: rest, acc =>
    if sep.isPrefixOf (c :: rest) then
      acc.reverse :: splitSepGo sep fuel (List.drop (sep.length - 1) rest) []
    else splitSepGo sep fuel rest (c :: acc)

/-- Python `s.split(sep)` for a nonempty separator. -/
def pySplitOn (s sep : String) : List String :=
  (splitSepGo sep.toList s.toList.length s.toList []).map String.mk

/-- Left-to-right, non-overlapping replacement (Python `str.replace`). -/
def replaceGo (pat repl : List Char) : Nat → List Char → List Char
  | _, [] => []
  | 0, cs => cs
  | fuel + 1, c :: rest =>
    if pat.isPrefixOf (c :: rest) then
      repl ++ replaceGo pat repl fuel (List.drop (pat.length - 1) rest)
    else c :: replaceGo pat repl fuel rest

/-- Python `s.replace(pat, repl)` for a nonempty pattern. -/
def pyReplace (s pat repl : String) : String :=
  String.mk (replaceGo pat.toList repl.toList s.toList.length s.toList)

/-- Python `s.lower()` (ASCII). -/
def pyLower (s : String) : String := String.mk (s.toList.map Char.toLower)

/-- Python `str.isdigit()` (ASCII): nonempty and all characters are digits. -/
def pyIsDigit (s : String) : Bool := !s.toList.isEmpty && s.toList.all Char.isDigit

/-- Numeric value of a list of ASCII digit characters. -/
def digitsVal (cs : List Char) : Nat := cs.foldl (fun a c => a * 10 + (c.toNat - 48)) 0

/-- After a leading digit, Python `int()` accepts digits with single
underscores strictly between digits. -/
def pyDigitsRest : List Char → Bool
  | [] => true
  | c :: rest =>
    if c = '_' then
      match rest with
      | [] => false
      | d :: rest2 => d.isDigit && pyDigitsRest rest2
    else c.isDigit && pyDigitsRest rest

/-- Body of a Python integer literal: digit, then digits/underscores. -/
def pyDigitsOk : List Char → Bool
  | [] => false
  | c :: rest => c.isDigit && pyDigitsRest rest

/-- Python `int(s)`: optional surrounding whitespace, optional sign,
digits with embedded single underscores; `none` models `ValueError`. -/
def pyInt? (s : String) : Option Int :=
  match pyStripL s.toList with
  | '-' :: rest =>
    if pyDigitsOk rest then some (-(digitsVal (rest.filter (fun c => c ≠ '_')) : Int)) else none
  | '+' :: rest =>
    if pyDigitsOk rest then some ((digitsVal (rest.filter (fun c => c ≠ '_')) : Int)) else none
  | cs =>
    if pyDigitsOk cs then some ((digitsVal (cs.filter (fun c => c ≠ '_')) : Int)) else none

/-- Python `s.startswith(pre)`. -/
def pyStartsWith (s pre : String) : Bool := pre.toList.isPrefixOf s.toList

/-- Python `s.endswith(suf)`. -/
def pyEndsWith (s suf : String) : Bool := suf.toList.isSuffixOf s.toList

/-- Python `needle in hay` for strings: substring test. -/
def strContains (hay needle : String) : Bool :=
  (List.range (hay.toList.length + 1)).any (fun i => needle.toList.isPrefixOf (hay.toList.drop i))

/-- Lookup in a Python dict modelled as an ordered association list. -/
def dictGet? {α : Type} (m : List (String × α)) (k : String) : Option α :=
  match m with
  | [] => none
  | (k1, v) :: rest => if k1 = k then some v else dictGet? rest k

/-- Python `d[k] = v`: replace in place if the key exists (keeping its
position), otherwise append. -/
def dictInsert {α : Type} (m : List (String × α)) (k : String) (v : α) : List (String × α) :=
  match m with
  | [] => [(k, v)]
  | (k1, v1) :: rest => if k1 = k then (k, v) :: rest else (k1, v1) :: dictInsert rest k v

/-- One resolution-tier configuration dict `{width, height, fps, format}`. -/
structure Profile where
  width : Nat
  height : Nat
  fps : Nat
  format : Option String
deriving DecidableEq, Repr

/-- Reference to a tier-profile dict object. -/
abbrev ProfRef := Nat

/-- A per-name tier dict (`"low_res" ↦ profile`, ...); profiles by reference. -/
abbrev TierDict := List (String × ProfRef)

/-- The `configs` mapping: short name to tier dict. -/
abbrev Configs := List (String × TierDict)

/-- One entry of `CameraRegistry.devices`. -/
structure DeviceInfo where
  full_name : String
  short_name : String
  device_id : Int
  all_devices : List Int
  formats : List String
deriving DecidableEq, Repr

/-- In-memory state of a `CameraRegistry`. -/
structure RegState where
  devices : List (String × DeviceInfo)
  name_to_device : List (String × String)
  configs : Configs
  profHeap : Nat → Profile
  nextRef : Nat

/-- The six built-in tier profiles of `DEFAULT_CAMERA_CONFIGS`, at heap
references 0..5 (unallocated cells hold a dummy profile). -/
def initHeap : Nat → Profile := fun r =>
  match r with
  | 0 => ⟨640, 480, 30, none⟩
  | 1 => ⟨1280, 720, 30, none⟩
  | 2 => ⟨1920, 1080, 30, none⟩
  | 3 => ⟨640, 480, 30, none⟩
  | 4 => ⟨1280, 720, 30, some "MJPG"⟩
  | 5 => ⟨1920, 1080, 30, some "MJPG"⟩
  | _ => ⟨0, 0, 0, none⟩

/-- Tier dict of the built-in `"default"` template. -/
def defaultTierDict : TierDict := [("low_res", 0), ("medium_res", 1), ("high_res", 2)]

/-- Tier dict of the built-in `"usb"` template. -/
def usbTierDict : TierDict := [("low_res", 3), ("medium_res", 4), ("high_res", 5)]

/-- The module constant `DEFAULT_CAMERA_CONFIGS` (its tier dicts are the
very objects referenced by a fresh registry's `configs`, because
`__init__` only takes a shallow `.copy()` of the outer dict). -/
def DEFAULT_CAMERA_CONFIGS : Configs := [("default", defaultTierDict), ("usb", usbTierDict)]

/-- Registry state right after `__init__` when no cache file exists
(`load_from_cache` finds nothing and leaves the state alone). -/
def initState : RegState :=
  { devices := []
    name_to_device := []
    configs := DEFAULT_CAMERA_CONFIGS
    profHeap := initHeap
    nextRef := 6 }

/-- Oracle for the external world consulted during a scan. -/
structure ScanEnv where
  listOutput : Option String
  devListFormatsOut : String → Option String
  devExists : Nat → Bool

/-- `CameraRegistry._get_device_formats`: substring-probe the
format-listing output; a missing tool or failed command yields `[]`. -/
def getDeviceFormats (env : ScanEnv) (device_path : String) : List String :=
  match env.devListFormatsOut device_path with
  | none => []
  | some out =>
    (if strContains out "MJPG" || strContains out "Motion-JPEG" then ["MJPG"] else []) ++
    (if strContains out "YUYV" then ["YUYV"] else [])

/-- First line of a block: strip, then drop one trailing colon and strip. -/
def parseFullName (line : String) : String :=
  let fn := pyStrip line
  if pyEndsWith fn ":" then pyStrip (String.mk fn.toList.dropLast) else fn

/-- `full_name.split(":", 1)[0].strip() if ":" in full_name else full_name`. -/
def shortOf (full_name : String) : String :=
  if strContains full_name ":" then
    String.mk (pyStripL (full_name.toList.takeWhile (fun c => c ≠ ':')))
  else full_name

/-- Collect `int(line.replace("/dev/video", ""))` for the stripped lines
that start with `/dev/video`; `.error` models the `ValueError` that
aborts `scan_devices` into its fallback. -/
def parseVideoLines : List String → Except Unit (List Int)
  | [] => .ok []
  | l :: rest =>
    let line := pyStrip l
    if pyStartsWith line "/dev/video" then
      match pyInt? (pyReplace line "/dev/video" "") with
      | some n => (parseVideoLines rest).map (fun xs => n :: xs)
      | none => .error ()
    else parseVideoLines rest

/-- `self.configs[name][tier]["format"] = fmt`, guarded by
`if tier in self.configs[name]` as in the source: mutates the referenced
profile object in the heap. -/
def setTierFormat (s : RegState) (name tier fmt : String) : RegState :=
  match dictGet? s.configs name with
  | none => s
  | some td =>
    match dictGet? td tier with
    | none => s
    | some r =>
      { s with profHeap := fun r1 => if r1 = r then { s.profHeap r1 with format := some fmt } else s.profHeap r1 }

/-- Allocate a fresh profile object holding `p` (a `dict.copy()` of a
flat profile dict, or a freshly parsed JSON object). -/
def allocProf (s : RegState) (p : Profile) : RegState × ProfRef :=
  ({ s with profHeap := fun r => if r = s.nextRef then p else s.profHeap r
            nextRef := s.nextRef + 1 }, s.nextRef)

/-- The `video<N> ↦ /dev/video<N>` alias insertions of `scan_devices`
(note: the value is the alias's own path, not the primary path). -/
def nameMapInserts (m : List (String × String)) (video_devices : List Int) : List (String × String) :=
  video_devices.foldl (fun m1 vid => dictInsert m1 ("video" ++ toString vid) ("/dev/video" ++ toString vid)) m

/-- State after the `devices` and `name_to_device` updates of one block
iteration of `scan_devices` (the `configs` seeding follows). -/
def deviceBaseState (env : ScanEnv) (s : RegState) (full_name short_name : String)
    (video_devices : List Int) (primary : Int) : RegState :=
  { s with
    devices := dictInsert s.devices ("/dev/video" ++ toString primary)
      ⟨full_name, short_name, primary, video_devices,
        getDeviceFormats env ("/dev/video" ++ toString primary)⟩
    name_to_device :=
      nameMapInserts
        (dictInsert (dictInsert s.name_to_device full_name ("/dev/video" ++ toString primary))
          short_name ("/dev/video" ++ toString primary))
        video_devices }

/-- Which template a fresh short name is seeded from. -/
def templateKeyFor (full_name : String) : String :=
  if strContains full_name "USB" || strContains full_name "usb" then "usb" else "default"

/-- `deviceBaseState` extended with the shallow template copy seeded for
a fresh short name. -/
def seededState (env : ScanEnv) (s : RegState) (full_name short_name : String)
    (video_devices : List Int) (primary : Int) (td : TierDict) : RegState :=
  { deviceBaseState env s full_name short_name video_devices primary with
    configs := dictInsert s.configs short_name td }

/-- Body of the per-block registration in `scan_devices` once a nonempty
device-file list has been extracted: store the record, extend the name
index, and lazily seed the per-short-name config (shallow template copy
plus in-place MJPG enablement; the seeding reads `configs`, which the
`devices`/`name_to_device` updates leave untouched).  `.error` models
the `KeyError` raised when the template key is absent from `configs`
(impossible in reachable states, where `"default"`/`"usb"` are always
present). -/
def registerDevice (env : ScanEnv) (s : RegState) (full_name short_name : String)
    (video_devices : List Int) (primary : Int) : Except RegState RegState :=
  if (dictGet? s.configs short_name).isSome then
    .ok (deviceBaseState env s full_name short_name video_devices primary)
  else
    match dictGet? s.configs (templateKeyFor full_name) with
    | none => .error (deviceBaseState env s full_name short_name video_devices primary)
    | some td =>
      if "MJPG" ∈ getDeviceFormats env ("/dev/video" ++ toString primary) then
        .ok (setTierFormat
          (setTierFormat (seededState env s full_name short_name video_devices primary td)
            short_name "medium_res" "MJPG")
          short_name "high_res" "MJPG")
      else .ok (seededState env s full_name short_name video_devices primary td)

/-- `block.strip().split("\n")` for one enumeration block. -/
def blockLines (block : String) : List String := pySplitOn (pyStrip block) "\n"

/-- The full name parsed from a block's first line. -/
def blockFullName (block : String) : String := parseFullName ((blockLines block).headD "")

/-- The short name a block's device would be registered under. -/
def blockShortName (block : String) : String := shortOf (blockFullName block)

/-- The numeric indices extracted from a block's device-file lines. -/
def blockIds (block : String) : Except Unit (List Int) :=
  parseVideoLines (blockLines block).tail

/-- Primary path and short name of the device a block registers, when
it lists at least one device file and parses cleanly. -/
def blockReg? (block : String) : Option (String × String) :=
  match blockIds block with
  | .ok (v :: _) => some ("/dev/video" ++ toString v, blockShortName block)
  | _ => none

/-- One iteration of the block loop of `scan_devices`. -/
def processBlock (env : ScanEnv) (s : RegState) (block : String) : Except RegState RegState :=
  match blockLines block with
  | [] => .ok s
  | first :: rest =>
    let full_name := parseFullName first
    match parseVideoLines rest with
    | .error _ => .error s
    | .ok [] => .ok s
    | .ok (primary :: more) =>
      registerDevice env s full_name (shortOf full_name) (primary :: more) primary

/-- The block loop of `scan_devices`; an exception carries the partial
state at the point it was raised. -/
def processBlocks (env : ScanEnv) : RegState → List String → Except RegState RegState
  | s, [] => .ok s
  | s, b :: rest =>
    match processBlock env s b with
    | .error s1 => .error s1
    | .ok s1 => processBlocks env s1 rest

/-- One iteration of `_scan_devices_fallback`'s device loop; `.error`
models the `KeyError` on a missing template key (the handler then
returns `{}` keeping whatever state was built). -/
def fallbackStep (env : ScanEnv) (s : RegState) (i : Nat) : Except RegState RegState :=
  let device_path := "/dev/video" ++ toString (i : Int)
  let generic_name := "Camera" ++ toString (i : Int)
  let formats := getDeviceFormats env device_path
  let info : DeviceInfo := ⟨generic_name, generic_name, (i : Int), [(i : Int)], formats⟩
  let s1 : RegState :=
    { s with
      devices := dictInsert s.devices device_path info
      name_to_device :=
        dictInsert (dictInsert s.name_to_device generic_name device_path)
          ("video" ++ toString (i : Int)) device_path }
  if (dictGet? s1.configs generic_name).isSome then .ok s1
  else
    match dictGet? s1.configs (if "MJPG" ∈ formats then "usb" else "default") with
    | none => .error s1
    | some td => .ok { s1 with configs := dictInsert s1.configs generic_name td }

/-- The device loop of `_scan_devices_fallback`. -/
def fallbackLoop (env : ScanEnv) : RegState → List Nat → Except RegState RegState
  | s, [] => .ok s
  | s, i :: rest =>
    match fallbackStep env s i with
    | .error s1 => .error s1
    | .ok s1 => fallbackLoop env s1 rest

/-- `CameraRegistry._scan_devices_fallback`: probe `/dev/video0..9` for
existence, clear the device tables, and register a generic record per
existing path. -/
def scanFallback (env : ScanEnv) (s : RegState) : RegState :=
  let ids := (List.range 10).filter env.devExists
  let s1 : RegState := { s with devices := [], name_to_device := [] }
  match fallbackLoop env s1 ids with
  | .ok s2 => s2
  | .error s2 => s2

/-- `CameraRegistry.scan_devices`: primary strategy parses the
enumeration output into blank-line-separated blocks; a missing tool,
a failed command, or any exception mid-parse falls back to sequential
probing (the write of the cache file is an external side effect and
leaves the in-memory state unchanged). -/
def scanDevices (env : ScanEnv) (s : RegState) : RegState :=
  match env.listOutput with
  | none => scanFallback env s
  | some output =>
    let s1 : RegState := { s with devices := [], name_to_device := [] }
    match processBlocks env s1 (pySplitOn output "\n\n") with
    | .ok s2 => s2
    | .error s2 => scanFallback env s2

/-- Case-insensitive substring scan over the name index, in insertion
order, returning the first matching value (`get_camera_id`'s and
`get_camera_info`'s fuzzy fallback). -/
def fuzzyFind (s : RegState) (camera_name : String) : Option String :=
  (s.name_to_device.find? (fun kv => strContains (pyLower kv.1) (pyLower camera_name))).map (fun kv => kv.2)

/-- Name-index steps of `get_camera_id` (after the numeric/path returns
and the possible rescan).  `none` models an uncaught `KeyError`: the
stored path is absent from `devices`, which happens for the
`video<N>` aliases of non-primary device files. -/
def lookupStep (s : RegState) (camera_name : String) : Option Int :=
  match (dictGet? s.name_to_device camera_name).bind
      (fun p => if p.toList.isEmpty then none else some p) with
  | some device_path => (dictGet? s.devices device_path).map (fun i => i.device_id)
  | none =>
    match fuzzyFind s camera_name with
    | some device_path => (dictGet? s.devices device_path).map (fun i => i.device_id)
    | none => some 0

/-- `CameraRegistry.get_camera_id` on a string identifier.  `some n` is a
returned id, `none` an uncaught exception. -/
def getCameraId (env : ScanEnv) (s : RegState) (camera_name : String) : Option Int :=
  if pyIsDigit camera_name then some ((digitsVal camera_name.toList : Nat) : Int)
  else
    match (if pyStartsWith camera_name "/dev/video" then
        pyInt? (camera_name.replace "/dev/video" "") else none) with
    | some n => some n
    | none =>
      let s1 := if s.devices.isEmpty then scanDevices env s else s
      lookupStep s1 camera_name

/-- Resolution steps of `get_camera_info` after the possible rescan.
`.error` models the uncaught `KeyError` of the name-index branches;
`.ok none` is Python's `return None`. -/
def getCameraInfoCore (s : RegState) (camera_name : String) : Except Unit (Option DeviceInfo) :=
  match (if pyIsDigit camera_name then
      dictGet? s.devices ("/dev/video" ++ toString ((digitsVal camera_name.toList : Nat) : Int))
    else none) with
  | some info => .ok (some info)
  | none =>
    match (if pyStartsWith camera_name "/dev/video" then dictGet? s.devices camera_name else none) with
    | some info => .ok (some info)
    | none =>
      match (dictGet? s.name_to_device camera_name).bind
          (fun p => if p.toList.isEmpty then none else some p) with
      | some device_path =>
        match dictGet? s.devices device_path with
        | some info => .ok (some info)
        | none => .error ()
      | none =>
        match fuzzyFind s camera_name with
        | some device_path =>
          match dictGet? s.devices device_path with
          | some info => .ok (some info)
          | none => .error ()
        | none => .ok none

/-- `CameraRegistry.get_camera_info`. -/
def getCameraInfo (env : ScanEnv) (s : RegState) (camera_name : String) :
    Except Unit (Option DeviceInfo) :=
  let s1 := if s.devices.isEmpty then scanDevices env s else s
  getCameraInfoCore s1 camera_name

/-- `CameraRegistry.get_camera_config`: returns the (possibly rescanned)
state together with a reference to the freshly copied profile dict
handed to the caller.  `.error` propagates `get_camera_info`'s
`KeyError` or a `KeyError` on an unknown tier name in the template. -/
def getCameraConfig (env : ScanEnv) (s : RegState) (camera_name resolution : String) :
    Except Unit (RegState × ProfRef) :=
  let sa := if s.devices.isEmpty then scanDevices env s else s
  let sb := if sa.devices.isEmpty then scanDevices env sa else sa
  match getCameraInfoCore sb camera_name with
  | .error _ => .error ()
  | .ok none =>
    match dictGet? defaultTierDict resolution with
    | some r => .ok (allocProf sb (sb.profHeap r))
    | none => .error ()
  | .ok (some info) =>
    match (dictGet? sb.configs info.short_name).bind (fun td => dictGet? td resolution) with
    | some r => .ok (allocProf sb (sb.profHeap r))
    | none =>
      if "MJPG" ∈ info.formats && (resolution = "medium_res" || resolution = "high_res") then
        match dictGet? usbTierDict resolution with
        | some r => .ok (allocProf sb (sb.profHeap r))
        | none => .error ()
      else
        match dictGet? defaultTierDict resolution with
        | some r => .ok (allocProf sb (sb.profHeap r))
        | none => .error ()

/-- Dereferenced view of one tier dict. -/
def tierVal (s : RegState) (td : TierDict) : List (String × Profile) :=
  td.map (fun kv => (kv.1, s.profHeap kv.2))

/-- Dereferenced view of the whole config store. -/
def configsVal (s : RegState) : List (String × List (String × Profile)) :=
  s.configs.map (fun kv => (kv.1, tierVal s kv.2))

/-- The profile value stored for a short name and tier, if any. -/
def configLookupVal (s : RegState) (name tier : String) : Option Profile :=
  (dictGet? s.configs name).bind (fun td => (dictGet? td tier).map s.profHeap)

/-- JSON values (the document layer of `camera_registry.json`; the
text serialisation itself is faithful on these values and modelled as
the identity). -/
inductive JVal where
  | null : JVal
  | bool : Bool → JVal
  | num : Int → JVal
  | str : String → JVal
  | arr : List JVal → JVal
  | obj : List (String × JVal) → JVal

/-- Encoding of one profile dict as written by `json.dump`. -/
def encProfile (p : Profile) : JVal :=
  .obj [("width", .num p.width), ("height", .num p.height), ("fps", .num p.fps),
        ("format", match p.format with | none => .null | some f => .str f)]

/-- Encoding of a tier dict (dereferencing the profile objects). -/
def encTier (s : RegState) (td : TierDict) : JVal :=
  .obj (td.map (fun kv => (kv.1, encProfile (s.profHeap kv.2))))

/-- Encoding of one device record. -/
def encDevice (d : DeviceInfo) : JVal :=
  .obj [("full_name", .str d.full_name), ("short_name", .str d.short_name),
        ("device_id", .num d.device_id),
        ("all_devices", .arr (d.all_devices.map JVal.num)),
        ("formats", .arr (d.formats.map JVal.str))]

/-- `CameraRegistry.save_to_cache`: the document passed to `json.dump`
(the write itself is an external effect; failures are swallowed and do
not change the state). -/
def saveDoc (s : RegState) : JVal :=
  .obj [("devices", .obj (s.devices.map (fun kv => (kv.1, encDevice kv.2)))),
        ("name_to_device", .obj (s.name_to_device.map (fun kv => (kv.1, JVal.str kv.2)))),
        ("configs", .obj (s.configs.map (fun kv => (kv.1, encTier s kv.2))))]

/-- Decode a profile dict (the shape `save_to_cache` writes). `none`
marks a document whose later uses would leave the typed fragment this
embedding covers (Python stores the raw value without validation). -/
def decProfile : JVal → Option Profile
  | .obj [("width", .num (Int.ofNat w)), ("height", .num (Int.ofNat h)),
          ("fps", .num (Int.ofNat f)), ("format", fv)] =>
    match fv with
    | .null => some ⟨w, h, f, none⟩
    | .str fs => some ⟨w, h, f, some fs⟩
    | _ => none
  | _ => none

/-- Decode the value list of a tier dict. -/
def decTierEntries : List (String × JVal) → Option (List (String × Profile))
  | [] => some []
  | (k, v) :: rest =>
    match decProfile v, decTierEntries rest with
    | some p, some tl => some ((k, p) :: tl)
    | _, _ => none

/-- Decode a `configs` object into per-name lists of tier profiles. -/
def decConfigsEntries : List (String × JVal) → Option (List (String × List (String × Profile)))
  | [] => some []
  | (k, v) :: rest =>
    match v with
    | .obj tvs =>
      match decTierEntries tvs, decConfigsEntries rest with
      | some tv, some tl => some ((k, tv) :: tl)
      | _, _ => none
    | _ => none

/-- Decode a JSON array of numbers. -/
def decNumList : List JVal → Option (List Int)
  | [] => some []
  | .num n :: rest => (decNumList rest).map (fun xs => n :: xs)
  | _ :: _ => none

/-- Decode a JSON array of strings. -/
def decStrList : List JVal → Option (List String)
  | [] => some []
  | .str f :: rest => (decStrList rest).map (fun xs => f :: xs)
  | _ :: _ => none

/-- Decode one device record. -/
def decDevice : JVal → Option DeviceInfo
  | .obj [("full_name", .str fn), ("short_name", .str sn), ("device_id", .num di),
          ("all_devices", .arr ads), ("formats", .arr fms)] =>
    match decNumList ads, decStrList fms with
    | some ids, some fs => some ⟨fn, sn, di, ids, fs⟩
    | _, _ => none
  | _ => none

/-- Decode the entry list of the `devices` object. -/
def decDevEntries : List (String × JVal) → Option (List (String × DeviceInfo))
  | [] => some []
  | (k, v) :: rest =>
    match decDevice v, decDevEntries rest with
    | some d, some tl => some ((k, d) :: tl)
    | _, _ => none

/-- Decode the `devices` object. -/
def decDevices : JVal → Option (List (String × DeviceInfo))
  | .obj kvs => decDevEntries kvs
  | _ => none

/-- Decode the entry list of the `name_to_device` object. -/
def decNameEntries : List (String × JVal) → Option (List (String × String))
  | [] => some []
  | (k, v) :: rest =>
    match v with
    | .str p => (decNameEntries rest).map (fun tl => (k, p) :: tl)
    | _ => none

/-- Decode the `name_to_device` object. -/
def decNames : JVal → Option (List (String × String))
  | .obj kvs => decNameEntries kvs
  | _ => none

/-- Allocate fresh profile objects for one decoded tier dict. -/
def allocTierGo (s : RegState) : List (String × Profile) → RegState × TierDict
  | [] => (s, [])
  | (t, p) :: rest =>
    let sp := allocProf s p
    let tl := allocTierGo sp.1 rest
    (tl.1, (t, sp.2) :: tl.2)

/-- Allocate fresh objects for all decoded config entries. -/
def allocConfigsGo (s : RegState) : List (String × List (String × Profile)) →
    RegState × List (String × TierDict)
  | [] => (s, [])
  | (k, tv) :: rest =>
    let tp := allocTierGo s tv
    let tl := allocConfigsGo tp.1 rest
    (tl.1, (k, tp.2) :: tl.2)

/-- `{**DEFAULT_CAMERA_CONFIGS, **loaded}`: insert the built-in entries
first, then the loaded ones (overriding in place). -/
def mergeConfigs (base : Configs) (over : List (String × TierDict)) : Configs :=
  over.foldl (fun acc kv => dictInsert acc kv.1 kv.2) base

/-- Outcome of the file access and `json.load` in `load_from_cache`. -/
inductive LoadEvent where
  | missing : LoadEvent
  | readError : LoadEvent
  | parsed : JVal → LoadEvent

/-- `CameraRegistry.load_from_cache`.  All exceptions are caught; the
assignments run in source order, so a document that parses as an object
whose `configs` value is not an object has already replaced `devices`
and `name_to_device` when the dict-merge raises `TypeError`.  `none`
marks a document that would put non-dict-shaped raw values into the
typed fields (outside this embedding's fragment). -/
def loadFromCache (s : RegState) (ev : LoadEvent) : Option RegState :=
  match ev with
  | .missing => some s
  | .readError => some s
  | .parsed doc =>
    match doc with
    | .obj kvs =>
      let dv := (dictGet? kvs "devices").getD (.obj [])
      let nv := (dictGet? kvs "name_to_device").getD (.obj [])
      let cv := (dictGet? kvs "configs").getD (.obj [])
      match decDevices dv, decNames nv with
      | some devs, some names =>
        match cv with
        | .obj ckvs =>
          match decConfigsEntries ckvs with
          | some centries =>
            let s1 : RegState := { s with devices := devs, name_to_device := names }
            let s2 := allocConfigsGo s1 centries
            some { s2.1 with configs := mergeConfigs DEFAULT_CAMERA_CONFIGS s2.2 }
          | none => none
        | _ => some { s with devices := devs, name_to_device := names }
      | _, _ => none
    | _ => some s

/-! ## Concrete scan scenarios -/

/-- Enumeration output with one device block exposing two device files
(`/dev/video0` and `/dev/video1`), as a typical UVC camera does. -/
def envA : ScanEnv :=
  { listOutput := some "CamA: Foo (usb-x):\n\t/dev/video0\n\t/dev/video1"
    devListFormatsOut := fun _ => none
    devExists := fun _ => false }

/-- Registry right after `scan_devices` in environment `envA`. -/
def postA : RegState := scanDevices envA initState

/-- Enumeration output whose device-file lines are not in ascending
order (`/dev/video5` before `/dev/video2`). -/
def envB : ScanEnv :=
  { listOutput := some "CamB:\n\t/dev/video5\n\t/dev/video2"
    devListFormatsOut := fun _ => none
    devExists := fun _ => false }

/-- Registry right after `scan_devices` in environment `envB`. -/
def postB : RegState := scanDevices envB initState

/-- Enumeration output with a single non-USB device whose format probe
reports Motion-JPEG support. -/
def envC : ScanEnv :=
  { listOutput := some "MyCam:\n\t/dev/video0"
    devListFormatsOut := fun p => if p = "/dev/video0" then some "[0]: MJPG (Motion-JPEG)" else none
    devExists := fun _ => false }

/-- Registry right after `scan_devices` in environment `envC`. -/
def postC : RegState := scanDevices envC initState

/-- Enumeration output with two devices sharing the short name
`MyCam`; only the second (`/dev/video1`) supports Motion-JPEG. -/
def envD : ScanEnv :=
  { listOutput := some "MyCam: A:\n\t/dev/video0\n\nMyCam: B:\n\t/dev/video1"
    devListFormatsOut := fun p => if p = "/dev/video1" then some "MJPG" else none
    devExists := fun _ => false }

/-- Registry right after `scan_devices` in environment `envD`. -/
def postD : RegState := scanDevices envD initState

/-! ## Claims -/

/-- **C1** (code bug).  After the scan in `envA` the registered device
has primary id 0 and `all_devices = [0, 1]`; its full name, short name
and the alias `video0` all resolve to the primary id 0, but the exact
NameIndex key `video1` (index 1 is in `all_devices`) makes
`get_camera_id` raise `KeyError` (modelled as `none`) instead of
returning the primary id: `name_to_device` maps `video1` to
`/dev/video1`, which is not a key of `devices`. -/
theorem c1_generic_alias_raises :
    (dictGet? postA.devices "/dev/video0").map (fun i => (i.device_id, i.all_devices))
      = some (0, [0, 1]) ∧
    getCameraId envA postA "CamA: Foo (usb-x)" = some 0 ∧
    getCameraId envA postA "CamA" = some 0 ∧
    getCameraId envA postA "video0" = some 0 ∧
    getCameraId envA postA "video1" = none := by decide

/-- **C5** (code bug).  `get_camera_id` does return id 0 for an
identifier that is non-numeric, not a device path, and matches no
NameIndex key exactly or as a case-insensitive substring — but it is
not exception-free: the exact key `video1` raises `KeyError`
(modelled as `none`). -/
theorem c5_no_match_zero_but_alias_raises :
    getCameraId envA postA "zzz" = some 0 ∧
    getCameraId envA postA "video1" = none := by decide

/-- **C2** (counterexample).  The block of `envB` lists `/dev/video5`
before `/dev/video2`; the stored record's primary id is 5 (the first
listed index), not the smallest index 2, and the canonical path is
`/dev/video5`. -/
theorem c2_counterexample :
    (dictGet? postB.devices "/dev/video5").map (fun i => (i.device_id, i.all_devices))
      = some (5, [5, 2]) ∧
    dictGet? postB.devices "/dev/video2" = none ∧
    ([(5 : Int), 2].min? = some 2) := by decide

/-- **C3** (code bug).  The short name `default` is in the config store
before any scan, yet scanning the non-USB MJPG-capable device of `envC`
changes the `default` template's `medium_res` and `high_res` profiles:
the seeded entry for `MyCam` was a shallow `.copy()` of the `default`
template, so enabling MJPG on it mutates the shared tier-profile
objects in place. -/
theorem c3_scan_mutates_default_template :
    dictGet? initState.configs "MyCam" = none ∧
    configLookupVal initState "default" "medium_res" = some ⟨1280, 720, 30, none⟩ ∧
    configLookupVal initState "default" "high_res" = some ⟨1920, 1080, 30, none⟩ ∧
    configLookupVal postC "default" "medium_res" = some ⟨1280, 720, 30, some "MJPG"⟩ ∧
    configLookupVal postC "default" "high_res" = some ⟨1920, 1080, 30, some "MJPG"⟩ := by decide

/-- **C7** (code bug).  In the state reached by `envC`'s scan, the
identifier `nosuchcam` resolves to no device record, yet
`get_camera_config` returns format `MJPG` for `medium_res` instead of
the built-in `default` template value `format = None`: the scan mutated
the shared `DEFAULT_CAMERA_CONFIGS["default"]` tier profiles in place. -/
theorem c7_unresolved_gets_mutated_template :
    (getCameraInfoCore postC "nosuchcam").toOption = some none ∧
    (getCameraConfig envC postC "nosuchcam" "medium_res").toOption.map (fun p => p.1.profHeap p.2)
      = some ⟨1280, 720, 30, some "MJPG"⟩ := by decide

/-- **C6** (counterexample).  In `envD` two devices share the short
name `MyCam`; the second (`/dev/video1`) supports MJPG, but its
config entry was seeded while processing the first (MJPG-less) device,
so `get_camera_config` at `medium_res`/`high_res` returns
`format = none`, not `MJPG`. -/
theorem c6_counterexample :
    (dictGet? postD.devices "/dev/video1").map (fun i => (i.short_name, i.formats))
      = some ("MyCam", ["MJPG"]) ∧
    (getCameraConfig envD postD "/dev/video1" "medium_res").toOption.map
      (fun p => (p.1.profHeap p.2).format) = some none ∧
    (getCameraConfig envD postD "/dev/video1" "high_res").toOption.map
      (fun p => (p.1.profHeap p.2).format) = some none := by decide

/-- **C9** (counterexample).  Loading a document that parses as an
object whose `configs` value is a list swallows the `TypeError`, but
the registry's `devices` map has already been replaced (here: emptied),
so the in-memory state does not remain as it was. -/
theorem c9_counterexample :
    (loadFromCache postC (.parsed (.obj [("configs", .arr [])]))).map (fun s => s.devices)
      = some [] ∧
    postC.devices ≠ [] := by decide

/-! ## Dictionary and state lemmas -/

theorem dictGet?_dictInsert_self {α : Type} (m : List (String × α)) (k : String) (v : α) :
    dictGet? (dictInsert m k v) k = some v := by
  induction m with
  | nil => simp [dictGet?, dictInsert]
  | cons hd tl ih =>
    by_cases h : hd.1 = k
    · simp [dictGet?, dictInsert, h]
    · simp [dictGet?, dictInsert, h, ih]

theorem dictGet?_dictInsert_ne {α : Type} (m : List (String × α)) (k k1 : String) (v : α)
    (h : k1 ≠ k) : dictGet? (dictInsert m k v) k1 = dictGet? m k1 := by
  induction m with
  | nil => simp [dictGet?, dictInsert, Ne.symm h]
  | cons hd tl ih =>
    by_cases hh : hd.1 = k
    · subst hh
      simp only [dictInsert, if_pos rfl, dictGet?]
      rw [if_neg (fun hk => h hk.symm), if_neg (fun hk => h hk.symm)]
    · simp only [dictInsert, if_neg hh, dictGet?]
      by_cases hk : hd.1 = k1
      · simp [hk]
      · simp [hk, ih]

theorem setTierFormat_devices (s : RegState) (name tier fmt : String) :
    (setTierFormat s name tier fmt).devices = s.devices := by
  unfold setTierFormat
  split
  · rfl
  · split
    · rfl
    · rfl

theorem setTierFormat_configs (s : RegState) (name tier fmt : String) :
    (setTierFormat s name tier fmt).configs = s.configs := by
  unfold setTierFormat
  split
  · rfl
  · split
    · rfl
    · rfl

theorem setTierFormat_name_to_device (s : RegState) (name tier fmt : String) :
    (setTierFormat s name tier fmt).name_to_device = s.name_to_device := by
  unfold setTierFormat
  split
  · rfl
  · split
    · rfl
    · rfl

theorem setTierFormat_nextRef (s : RegState) (name tier fmt : String) :
    (setTierFormat s name tier fmt).nextRef = s.nextRef := by
  unfold setTierFormat
  split
  · rfl
  · split
    · rfl
    · rfl

/-- A profile-format mutation either leaves a cell's format alone or
sets it to the written tag. -/
theorem setTierFormat_format_cases (s : RegState) (name tier fmt : String) (r : ProfRef) :
    ((setTierFormat s name tier fmt).profHeap r).format = (s.profHeap r).format ∨
    ((setTierFormat s name tier fmt).profHeap r).format = some fmt := by
  unfold setTierFormat
  split
  · exact Or.inl rfl
  · split
    · exact Or.inl rfl
    · next r1 _ =>
      by_cases h : r = r1
      · exact Or.inr (by simp [h])
      · exact Or.inl (by simp [h])

/-- A profile-format mutation never changes any field other than
`format`. -/
theorem setTierFormat_shape (s : RegState) (name tier fmt : String) (r : ProfRef) :
    (setTierFormat s name tier fmt).profHeap r = s.profHeap r ∨
    (setTierFormat s name tier fmt).profHeap r = { s.profHeap r with format := some fmt } := by
  unfold setTierFormat
  split
  · exact Or.inl rfl
  · split
    · exact Or.inl rfl
    · next r1 _ =>
      by_cases h : r = r1
      · exact Or.inr (by simp [h])
      · exact Or.inl (by simp [h])

/-- The device record stored by a successful `registerDevice` call. -/
theorem registerDevice_ok_devices (env : ScanEnv) (s : RegState) (fn sn : String)
    (vds : List Int) (p : Int) (s1 : RegState)
    (h : registerDevice env s fn sn vds p = .ok s1) :
    s1.devices = dictInsert s.devices ("/dev/video" ++ toString p)
      ⟨fn, sn, p, vds, getDeviceFormats env ("/dev/video" ++ toString p)⟩ := by
  unfold registerDevice at h
  split at h
  · cases h
    rfl
  · split at h
    · cases h
    · split at h
      · cases h
        rw [setTierFormat_devices, setTierFormat_devices]
        rfl
      · cases h
        rfl

/-- With both built-in templates present, `registerDevice` never raises. -/
theorem registerDevice_isOk (env : ScanEnv) (s : RegState) (fn sn : String)
    (vds : List Int) (p : Int)
    (hdef : (dictGet? s.configs "default").isSome = true)
    (husb : (dictGet? s.configs "usb").isSome = true) :
    ∃ s1, registerDevice env s fn sn vds p = .ok s1 := by
  unfold registerDevice
  split
  · exact ⟨_, rfl⟩
  · split
    · next hco =>
      exfalso
      unfold templateKeyFor at hco
      split at hco
      · rw [hco] at husb
        simp at husb
      · rw [hco] at hdef
        simp at hdef
    · split
      · exact ⟨_, rfl⟩
      · exact ⟨_, rfl⟩

/-- **C2** (amended).  For every block parsed by the primary scan
strategy that lists at least one device file, the stored record's
primary id is the FIRST numeric index extracted, in the order the
device-file lines appear in the block (`video_devices[0]`), and its
canonical path is `/dev/video<first>`; in particular, whenever the
extracted list is in ascending order the first index is also the
smallest. -/
theorem c2_primary_is_first_listed (env : ScanEnv) (s : RegState) (block first : String)
    (lines : List String) (v : Int) (rest : List Int)
    (hl : blockLines block = first :: lines)
    (hp : parseVideoLines lines = .ok (v :: rest))
    (hdef : (dictGet? s.configs "default").isSome = true)
    (husb : (dictGet? s.configs "usb").isSome = true) :
    (processBlock env s block).toOption.bind
      (fun s1 => (dictGet? s1.devices ("/dev/video" ++ toString v)).map
        (fun i => (i.device_id, i.all_devices))) = some (v, v :: rest) ∧
    (List.Sorted (· ≤ ·) (v :: rest) → ∀ x ∈ v :: rest, v ≤ x) := by
  constructor
  · unfold processBlock
    rw [hl]
    simp only [hp]
    obtain ⟨s1, hs1⟩ := registerDevice_isOk env s (parseFullName first)
      (shortOf (parseFullName first)) (v :: rest) v hdef husb
    rw [hs1]
    simp [Except.toOption,
      registerDevice_ok_devices env s (parseFullName first)
        (shortOf (parseFullName first)) (v :: rest) v s1 hs1,
      dictGet?_dictInsert_self]
  · intro hs x hx
    rcases List.mem_cons.mp hx with h | h
    · exact h ▸ le_refl v
    · exact (List.sorted_cons.mp hs).1 x h

/-- Witness for `c2_primary_is_first_listed` at the `envB` block. -/
theorem c2_primary_is_first_listed_witness :
    (processBlock envB initState "CamB:\n\t/dev/video5\n\t/dev/video2").toOption.bind
      (fun s1 => (dictGet? s1.devices ("/dev/video" ++ toString (5 : Int))).map
        (fun i => (i.device_id, i.all_devices))) = some (5, [5, 2]) ∧
    (List.Sorted (· ≤ ·) [(5 : Int), 2] → ∀ x ∈ [(5 : Int), 2], (5 : Int) ≤ x) :=
  c2_primary_is_first_listed envB initState "CamB:\n\t/dev/video5\n\t/dev/video2" "CamB:"
    ["\t/dev/video5", "\t/dev/video2"] 5 [2] (by decide) (by rfl) (by decide) (by decide)

/-- **C9** (amended).  `load_from_cache` never propagates an exception.
When the load fails on anything other than a parsed object document —
missing file, unreadable or unparsable file, or a document whose top
level is not an object — the in-memory state is exactly as before.
When the document is an object whose `configs` value is not an object,
the registry's `configs` and its profile objects are still untouched,
but `devices` and `name_to_device` have already been reassigned before
the merge's `TypeError`, which is why the original claim is false. -/
theorem c9_failed_load_keeps_configs (s s1 : RegState) (ev : LoadEvent)
    (hfail : ∀ kvs, ev = .parsed (.obj kvs) →
      ∀ ckvs, (dictGet? kvs "configs").getD (.obj []) ≠ .obj ckvs)
    (h : loadFromCache s ev = some s1) :
    (s1.configs = s.configs ∧ s1.profHeap = s.profHeap ∧ s1.nextRef = s.nextRef) ∧
    ((∀ kvs : List (String × JVal), ev ≠ .parsed (.obj kvs)) → s1 = s) := by
  cases ev with
  | missing =>
    cases h
    exact ⟨⟨rfl, rfl, rfl⟩, fun _ => rfl⟩
  | readError =>
    cases h
    exact ⟨⟨rfl, rfl, rfl⟩, fun _ => rfl⟩
  | parsed doc =>
    cases doc with
    | null => cases h; exact ⟨⟨rfl, rfl, rfl⟩, fun _ => rfl⟩
    | bool b => cases h; exact ⟨⟨rfl, rfl, rfl⟩, fun _ => rfl⟩
    | num n => cases h; exact ⟨⟨rfl, rfl, rfl⟩, fun _ => rfl⟩
    | str t => cases h; exact ⟨⟨rfl, rfl, rfl⟩, fun _ => rfl⟩
    | arr xs => cases h; exact ⟨⟨rfl, rfl, rfl⟩, fun _ => rfl⟩
    | obj kvs =>
      simp only [loadFromCache] at h
      split at h
      · split at h
        · next ckvs heq =>
          exact absurd heq (hfail kvs rfl ckvs)
        · cases h
          exact ⟨⟨rfl, rfl, rfl⟩, fun hne => absurd rfl (hne kvs)⟩
      · cases h

/-- Witness for `c9_failed_load_keeps_configs`: loading a document with
a list-valued `configs` over the scanned state `postC`. -/
theorem c9_failed_load_keeps_configs_witness :
    (({ postC with devices := [], name_to_device := [] } : RegState).configs = postC.configs ∧
     ({ postC with devices := [], name_to_device := [] } : RegState).profHeap = postC.profHeap ∧
     ({ postC with devices := [], name_to_device := [] } : RegState).nextRef = postC.nextRef) ∧
    ((∀ kvs : List (String × JVal),
        LoadEvent.parsed (.obj [("configs", JVal.arr [])]) ≠ .parsed (.obj kvs)) →
      ({ postC with devices := [], name_to_device := [] } : RegState) = postC) :=
  c9_failed_load_keeps_configs postC { postC with devices := [], name_to_device := [] }
    (.parsed (.obj [("configs", .arr [])]))
    (by
      intro kvs hk ckvs
      cases hk
      intro hcon
      exact JVal.noConfusion hcon)
    (by rfl)

/-! ## C10: the returned profile dict is a fresh copy -/

/-- All profile references reachable from a config store. -/
def configRefs (c : Configs) : List ProfRef :=
  (c.map (fun kv => kv.2.map (fun e => e.2))).flatten

/-- Heap well-formedness: every reachable profile reference (including
the six template cells 0..5) lies below the allocation counter.  It
holds for `initState` and is preserved by every modelled operation. -/
def stateWF (s : RegState) : Prop :=
  (∀ r ∈ configRefs s.configs, r < s.nextRef) ∧ 6 ≤ s.nextRef

/-- The caller overwriting the dict returned by `get_camera_config`
(assigning its keys amounts to replacing the object's value). -/
def setProf (s : RegState) (r : ProfRef) (p : Profile) : RegState :=
  { s with profHeap := fun r1 => if r1 = r then p else s.profHeap r1 }

theorem dictGet?_mem {α : Type} (m : List (String × α)) (k : String) (v : α)
    (h : dictGet? m k = some v) : (k, v) ∈ m := by
  induction m with
  | nil => simp [dictGet?] at h
  | cons hd tl ih =>
    rw [dictGet?] at h
    by_cases hk : hd.1 = k
    · rw [if_pos hk] at h
      cases h
      subst hk
      exact List.mem_cons_self _ _
    · rw [if_neg hk] at h
      exact List.mem_cons_of_mem hd (ih h)

/-- A reference stored in a config store's tier dict is reachable. -/
theorem mem_configRefs (c : Configs) (n t : String) (td : TierDict) (r : ProfRef)
    (hn : dictGet? c n = some td) (ht : dictGet? td t = some r) :
    r ∈ configRefs c := by
  unfold configRefs
  rw [List.mem_flatten]
  exact ⟨td.map (fun e => e.2),
    List.mem_map.mpr ⟨(n, td), dictGet?_mem c n td hn, rfl⟩,
    List.mem_map.mpr ⟨(t, r), dictGet?_mem td t r ht, rfl⟩⟩

/-- With a nonempty device table, every successful `get_camera_config`
result is a fresh allocation over the unchanged input state. -/
theorem getCameraConfig_ok_shape (env : ScanEnv) (s sr : RegState) (r : ProfRef)
    (camera_name resolution : String)
    (hdev : s.devices ≠ [])
    (h : getCameraConfig env s camera_name resolution = .ok (sr, r)) :
    ∃ q, (sr, r) = allocProf s q := by
  have hie : s.devices.isEmpty = false := by
    cases hd : s.devices with
    | nil => exact absurd hd hdev
    | cons a l => rfl
  unfold getCameraConfig at h
  simp only [hie, Bool.false_eq_true, if_false] at h
  split at h
  · cases h
  · split at h
    · injection h with h2
      exact ⟨_, h2.symm⟩
    · cases h
  · split at h
    · injection h with h2
      exact ⟨_, h2.symm⟩
    · split at h
      · split at h
        · injection h with h2
          exact ⟨_, h2.symm⟩
        · cases h
      · split at h
        · injection h with h2
          exact ⟨_, h2.symm⟩
        · cases h

/-- **C10** (confirmed).  The profile dict returned by
`get_camera_config` is a fresh `.copy()`: overwriting it afterwards
changes no stored per-device config value and none of the six built-in
template profiles. -/
theorem c10_returned_profile_is_fresh (env : ScanEnv) (s sr : RegState) (r : ProfRef)
    (camera_name resolution : String) (p : Profile)
    (hdev : s.devices ≠ [])
    (hwf : stateWF s)
    (h : getCameraConfig env s camera_name resolution = .ok (sr, r)) :
    (∀ n t, configLookupVal (setProf sr r p) n t = configLookupVal s n t) ∧
    (∀ r0, r0 < 6 → (setProf sr r p).profHeap r0 = s.profHeap r0) := by
  obtain ⟨q, hpair⟩ := getCameraConfig_ok_shape env s sr r camera_name resolution hdev h
  have hsr : sr = (allocProf s q).1 := congrArg Prod.fst hpair
  have hr : r = s.nextRef := congrArg Prod.snd hpair
  have hheap : ∀ r1, r1 ≠ s.nextRef → (setProf sr r p).profHeap r1 = s.profHeap r1 := by
    intro r1 hne
    rw [hsr, hr]
    unfold setProf allocProf
    simp [hne]
  constructor
  · intro n t
    unfold configLookupVal
    have hcfg : (setProf sr r p).configs = s.configs := by
      rw [hsr]
      rfl
    rw [hcfg]
    cases hn : dictGet? s.configs n with
    | none => rfl
    | some td =>
      cases ht : dictGet? td t with
      | none => simp [ht]
      | some r2 =>
        have hlt : r2 < s.nextRef := hwf.1 r2 (mem_configRefs s.configs n t td r2 hn ht)
        simp [ht, hheap r2 (Nat.ne_of_lt hlt)]
  · intro r0 hr0
    exact hheap r0 (Nat.ne_of_lt (lt_of_lt_of_le hr0 hwf.2))

/-- Witness for `c10_returned_profile_is_fresh` on the `envC` scan state. -/
theorem c10_returned_profile_is_fresh_witness :
    (∀ n t,
      configLookupVal
        (setProf ((allocProf postC (postC.profHeap 0)).1) ((allocProf postC (postC.profHeap 0)).2)
          ⟨1, 1, 1, none⟩) n t = configLookupVal postC n t) ∧
    (∀ r0, r0 < 6 →
      (setProf ((allocProf postC (postC.profHeap 0)).1) ((allocProf postC (postC.profHeap 0)).2)
        ⟨1, 1, 1, none⟩).profHeap r0 = postC.profHeap r0) :=
  c10_returned_profile_is_fresh envC postC ((allocProf postC (postC.profHeap 0)).1)
    ((allocProf postC (postC.profHeap 0)).2) "MyCam" "low_res" ⟨1, 1, 1, none⟩
    (by decide) ⟨by decide, by decide⟩ (by rfl)

/-! ## C8: cache round trip -/

theorem decProfile_encProfile (p : Profile) : decProfile (encProfile p) = some p := by
  cases p with
  | mk w h f fmt =>
    cases fmt with
    | none => rfl
    | some fs => rfl

theorem decTierEntries_enc (tv : List (String × Profile)) :
    decTierEntries (tv.map (fun kv => (kv.1, encProfile kv.2))) = some tv := by
  induction tv with
  | nil => rfl
  | cons hd tl ih =>
    obtain ⟨k, p⟩ := hd
    simp [decTierEntries, decProfile_encProfile, ih]

theorem decNumList_enc (xs : List Int) : decNumList (xs.map JVal.num) = some xs := by
  induction xs with
  | nil => rfl
  | cons hd tl ih => simp [decNumList, ih]

theorem decStrList_enc (xs : List String) : decStrList (xs.map JVal.str) = some xs := by
  induction xs with
  | nil => rfl
  | cons hd tl ih => simp [decStrList, ih]

theorem decDevice_encDevice (d : DeviceInfo) : decDevice (encDevice d) = some d := by
  cases d with
  | mk fn sn di ads fms =>
    simp [encDevice, decDevice, decNumList_enc, decStrList_enc]

theorem decDevEntries_enc (m : List (String × DeviceInfo)) :
    decDevEntries (m.map (fun kv => (kv.1, encDevice kv.2))) = some m := by
  induction m with
  | nil => rfl
  | cons hd tl ih =>
    obtain ⟨k, d⟩ := hd
    simp [decDevEntries, decDevice_encDevice, ih]

theorem decNameEntries_enc (m : List (String × String)) :
    decNameEntries (m.map (fun kv => (kv.1, JVal.str kv.2))) = some m := by
  induction m with
  | nil => rfl
  | cons hd tl ih =>
    obtain ⟨k, p⟩ := hd
    simp [decNameEntries, ih]

theorem decTierEntries_encHeap (s : RegState) (td : TierDict) :
    decTierEntries (td.map (fun kv => (kv.1, encProfile (s.profHeap kv.2)))) =
      some (tierVal s td) := by
  induction td with
  | nil => rfl
  | cons hd tl ih =>
    obtain ⟨t, r⟩ := hd
    simp [decTierEntries, decProfile_encProfile, ih, tierVal]

theorem decConfigsEntries_enc (s : RegState) (c : Configs) :
    decConfigsEntries (c.map (fun kv => (kv.1, encTier s kv.2))) =
      some (c.map (fun kv => (kv.1, tierVal s kv.2))) := by
  induction c with
  | nil => rfl
  | cons hd tl ih =>
    obtain ⟨k, td⟩ := hd
    simp only [encTier] at ih
    simp [decConfigsEntries, encTier, decTierEntries_encHeap, ih, tierVal]

theorem dictGet?_isSome_iff_mem {α : Type} (m : List (String × α)) (k : String) :
    (dictGet? m k).isSome = true ↔ k ∈ m.map Prod.fst := by
  induction m with
  | nil => simp [dictGet?]
  | cons hd tl ih =>
    rw [dictGet?]
    by_cases hk : hd.1 = k
    · simp [hk]
    · simp [hk, ih, Ne.symm hk]

theorem dictGet?_eq_none_of_not_mem {α : Type} (m : List (String × α)) (k : String)
    (h : k ∉ m.map Prod.fst) : dictGet? m k = none := by
  cases ho : dictGet? m k with
  | none => rfl
  | some v =>
    exact absurd ((dictGet?_isSome_iff_mem m k).mp (by rw [ho]; rfl)) h

theorem dictGet?_map_value {α β : Type} (m : List (String × α)) (f : α → β) (k : String) :
    dictGet? (m.map (fun kv => (kv.1, f kv.2))) k = (dictGet? m k).map f := by
  induction m with
  | nil => rfl
  | cons hd tl ih =>
    rw [List.map_cons, dictGet?, dictGet?]
    by_cases hk : hd.1 = k
    · rw [if_pos hk, if_pos hk]
      rfl
    · rw [if_neg hk, if_neg hk, ih]

/-- `{**base, **over}` looks an entry up in `over` first and falls back
to `base` (for `over` with duplicate-free keys, as Python dicts are). -/
theorem dictGet?_mergeConfigs (over : Configs) : ∀ (base : Configs) (k : String),
    (over.map Prod.fst).Nodup →
    dictGet? (mergeConfigs base over) k = (dictGet? over k).elim (dictGet? base k) some := by
  induction over with
  | nil => intro base k _; rfl
  | cons hd tl ih =>
    intro base k hnd
    obtain ⟨k0, v0⟩ := hd
    rw [List.map_cons, List.nodup_cons] at hnd
    unfold mergeConfigs at ih ⊢
    rw [List.foldl_cons, ih (dictInsert base k0 v0) k hnd.2]
    by_cases hk : k0 = k
    · subst hk
      rw [dictGet?_eq_none_of_not_mem tl k0 hnd.1]
      simp [dictGet?, dictGet?_dictInsert_self]
    · rw [dictGet?, if_neg hk]
      cases dictGet? tl k with
      | none => simp [dictGet?_dictInsert_ne base k0 k v0 (fun hc => hk hc.symm)]
      | some v => rfl

/-- The base state written by `load_from_cache`'s first two assignments. -/
def loadBaseState (s s0 : RegState) : RegState :=
  { s0 with devices := s.devices, name_to_device := s.name_to_device }

/-- The allocation performed when loading the document saved from `s`
over the registry `s0`. -/
def loadedAlloc (s s0 : RegState) : RegState × List (String × TierDict) :=
  allocConfigsGo (loadBaseState s s0)
    (s.configs.map (fun kv => (kv.1, tierVal s kv.2)))

/-- The registry produced by loading the document saved from `s` over
the registry `s0`. -/
def loadedState (s s0 : RegState) : RegState :=
  { (loadedAlloc s s0).1 with
    configs := mergeConfigs DEFAULT_CAMERA_CONFIGS (loadedAlloc s s0).2 }

/-- Allocating the fresh tier-profile objects of one decoded tier dict:
the counter grows, existing cells are untouched, the other state fields
are untouched, and dereferencing the fresh dict in the resulting heap
yields exactly the decoded values. -/
theorem allocTierGo_spec (tv : List (String × Profile)) : ∀ (s : RegState),
    s.nextRef ≤ (allocTierGo s tv).1.nextRef ∧
    (∀ r, r < s.nextRef → (allocTierGo s tv).1.profHeap r = s.profHeap r) ∧
    tierVal (allocTierGo s tv).1 (allocTierGo s tv).2 = tv ∧
    (∀ e ∈ (allocTierGo s tv).2, e.2 < (allocTierGo s tv).1.nextRef) ∧
    (allocTierGo s tv).1.devices = s.devices ∧
    (allocTierGo s tv).1.name_to_device = s.name_to_device ∧
    (allocTierGo s tv).1.configs = s.configs := by
  induction tv with
  | nil =>
    intro s
    exact ⟨le_refl _, fun r _ => rfl, rfl, by simp [allocTierGo], rfl, rfl, rfl⟩
  | cons hd tl ih =>
    intro s
    obtain ⟨t, p⟩ := hd
    obtain ⟨ha, hb, hc, hd2, he, hf, hg⟩ := ih (allocProf s p).1
    have hstep : allocTierGo s ((t, p) :: tl)
        = ((allocTierGo (allocProf s p).1 tl).1, (t, s.nextRef) :: (allocTierGo (allocProf s p).1 tl).2) := by
      rfl
    rw [hstep]
    have hnext1 : (allocProf s p).1.nextRef = s.nextRef + 1 := rfl
    have hlt : s.nextRef < (allocTierGo (allocProf s p).1 tl).1.nextRef := by
      rw [hnext1] at ha
      exact lt_of_lt_of_le (Nat.lt_succ_self _) ha
    refine ⟨le_of_lt hlt, ?_, ?_, ?_, he, hf, hg⟩
    · intro r hr
      rw [hb r (by rw [hnext1]; exact Nat.lt_succ_of_lt hr)]
      unfold allocProf
      simp [Nat.ne_of_lt hr]
    · unfold tierVal at hc ⊢
      rw [List.map_cons, hc]
      have hfresh : (allocTierGo (allocProf s p).1 tl).1.profHeap s.nextRef = p := by
        rw [hb s.nextRef (by rw [hnext1]; exact Nat.lt_succ_self _)]
        unfold allocProf
        simp
      rw [hfresh]
    · intro e hee
      rcases List.mem_cons.mp hee with h1 | h1
      · rw [h1]
        exact hlt
      · exact hd2 e h1

/-- `allocConfigsGo` analogue of `allocTierGo_spec`. -/
theorem allocConfigsGo_spec (entries : List (String × List (String × Profile))) :
    ∀ (s : RegState),
    s.nextRef ≤ (allocConfigsGo s entries).1.nextRef ∧
    (∀ r, r < s.nextRef → (allocConfigsGo s entries).1.profHeap r = s.profHeap r) ∧
    ((allocConfigsGo s entries).2.map
      (fun kv => (kv.1, tierVal (allocConfigsGo s entries).1 kv.2))) = entries ∧
    (allocConfigsGo s entries).1.devices = s.devices ∧
    (allocConfigsGo s entries).1.name_to_device = s.name_to_device ∧
    (allocConfigsGo s entries).1.configs = s.configs := by
  induction entries with
  | nil =>
    intro s
    exact ⟨le_refl _, fun r _ => rfl, rfl, rfl, rfl, rfl⟩
  | cons hd tl ih =>
    intro s
    obtain ⟨k, tv⟩ := hd
    obtain ⟨ta, tb, tc, td2, te, tf, tg⟩ := allocTierGo_spec tv s
    obtain ⟨ha, hb, hc, he, hf, hg⟩ := ih (allocTierGo s tv).1
    have hstep : allocConfigsGo s ((k, tv) :: tl)
        = ((allocConfigsGo (allocTierGo s tv).1 tl).1,
           (k, (allocTierGo s tv).2) :: (allocConfigsGo (allocTierGo s tv).1 tl).2) := by
      rfl
    rw [hstep]
    refine ⟨le_trans ta ha, ?_, ?_, by rw [he, te], by rw [hf, tf], by rw [hg, tg]⟩
    · intro r hr
      rw [hb r (lt_of_lt_of_le hr ta), tb r hr]
    · rw [List.map_cons, hc]
      have htv : tierVal (allocConfigsGo (allocTierGo s tv).1 tl).1 (allocTierGo s tv).2
          = tierVal (allocTierGo s tv).1 (allocTierGo s tv).2 := by
        unfold tierVal
        refine List.map_congr_left ?_
        intro e hee
        rw [hb e.2 (td2 e hee)]
      rw [htv, tc]

/-- **C8** (confirmed).  Saving the registry and loading the resulting
document (over any registry state) restores `devices` and
`name_to_device` exactly and restores `configs` up to key order and
profile object identity: every (short name, tier) lookup yields the
same profile value.  The two hypotheses are Python dict invariants of
every reachable state: keys are duplicate-free and the built-in
`default`/`usb` template keys are present. -/
theorem c8_cache_roundtrip (s s0 : RegState)
    (hnd : (s.configs.map Prod.fst).Nodup)
    (hdef : (dictGet? s.configs "default").isSome = true)
    (husb : (dictGet? s.configs "usb").isSome = true) :
    ∃ s1, loadFromCache s0 (.parsed (saveDoc s)) = some s1 ∧
      s1.devices = s.devices ∧
      s1.name_to_device = s.name_to_device ∧
      (∀ n t, configLookupVal s1 n t = configLookupVal s n t) := by
  have hdec1 : decDevices (JVal.obj (s.devices.map
      (fun (kv : String × DeviceInfo) => (kv.1, encDevice kv.2)))) = some s.devices :=
    decDevEntries_enc s.devices
  have hdec2 : decNames (JVal.obj (s.name_to_device.map
      (fun (kv : String × String) => (kv.1, JVal.str kv.2)))) = some s.name_to_device :=
    decNameEntries_enc s.name_to_device
  have hload : loadFromCache s0 (.parsed (saveDoc s)) = some (loadedState s s0) := by
    show (match decDevices (JVal.obj (s.devices.map
            (fun (kv : String × DeviceInfo) => (kv.1, encDevice kv.2)))),
          decNames (JVal.obj (s.name_to_device.map
            (fun (kv : String × String) => (kv.1, JVal.str kv.2)))) with
      | some devs, some names =>
        match decConfigsEntries (s.configs.map
            (fun (kv : String × TierDict) => (kv.1, encTier s kv.2))) with
        | some centries =>
          some { (allocConfigsGo { s0 with devices := devs, name_to_device := names } centries).1 with
                 configs := mergeConfigs DEFAULT_CAMERA_CONFIGS
                   (allocConfigsGo { s0 with devices := devs, name_to_device := names } centries).2 }
        | none => none
      | _, _ => none) = some (loadedState s s0)
    rw [hdec1, hdec2, decConfigsEntries_enc s s.configs]
    rfl
  obtain ⟨ha, hb, hc, he, hf, hg⟩ :=
    allocConfigsGo_spec (s.configs.map (fun kv => (kv.1, tierVal s kv.2)))
      (loadBaseState s s0)
  have hc2 : (loadedAlloc s s0).2.map
      (fun kv => (kv.1, tierVal (loadedAlloc s s0).1 kv.2))
      = s.configs.map (fun kv => (kv.1, tierVal s kv.2)) := hc
  refine ⟨loadedState s s0, hload, he, hf, ?_⟩
  have hkeys : (loadedAlloc s s0).2.map Prod.fst = s.configs.map Prod.fst := by
    have h1 := congrArg (List.map Prod.fst) hc2
    rw [List.map_map, List.map_map] at h1
    exact h1
  intro n t
  unfold configLookupVal
  have hcfg : (loadedState s s0).configs
      = mergeConfigs DEFAULT_CAMERA_CONFIGS (loadedAlloc s s0).2 := rfl
  rw [hcfg]
  rw [dictGet?_mergeConfigs (loadedAlloc s s0).2 DEFAULT_CAMERA_CONFIGS n
    (by rw [hkeys]; exact hnd)]
  have hval : dictGet? ((loadedAlloc s s0).2.map
        (fun kv => (kv.1, tierVal (loadedAlloc s s0).1 kv.2))) n
      = dictGet? (s.configs.map (fun kv => (kv.1, tierVal s kv.2))) n := by
    rw [hc2]
  rw [dictGet?_map_value, dictGet?_map_value] at hval
  cases hov : dictGet? (loadedAlloc s s0).2 n with
  | some otd =>
    rw [hov] at hval
    cases hsc : dictGet? s.configs n with
    | none =>
      rw [hsc] at hval
      exact absurd hval (by simp)
    | some td =>
      rw [hsc] at hval
      have htd : tierVal (loadedAlloc s s0).1 otd = tierVal s td := Option.some.inj hval
      have h2 : dictGet? (otd.map (fun kv => (kv.1, (loadedAlloc s s0).1.profHeap kv.2))) t
          = dictGet? (td.map (fun kv => (kv.1, s.profHeap kv.2))) t := by
        have h3 := htd
        unfold tierVal at h3
        rw [h3]
      rw [dictGet?_map_value, dictGet?_map_value] at h2
      exact h2
  | none =>
    rw [hov] at hval
    cases hsc : dictGet? s.configs n with
    | some td =>
      rw [hsc] at hval
      exact absurd hval.symm (by simp)
    | none =>
      have hnd1 : n ≠ "default" := by
        intro hn
        rw [hn] at hsc
        rw [hsc] at hdef
        exact Bool.noConfusion hdef
      have hnu : n ≠ "usb" := by
        intro hn
        rw [hn] at hsc
        rw [hsc] at husb
        exact Bool.noConfusion husb
      rw [show dictGet? DEFAULT_CAMERA_CONFIGS n = none by
        unfold DEFAULT_CAMERA_CONFIGS dictGet?
        rw [if_neg (fun hc1 => hnd1 hc1.symm)]
        rw [dictGet?, if_neg (fun hc1 => hnu hc1.symm)]
        rfl]
      rfl

/-- Witness for `c8_cache_roundtrip`: round-tripping the scanned state
`postC` through the cache document into a fresh registry. -/
theorem c8_cache_roundtrip_witness :
    ∃ s1, loadFromCache initState (.parsed (saveDoc postC)) = some s1 ∧
      s1.devices = postC.devices ∧
      s1.name_to_device = postC.name_to_device ∧
      (∀ n t, configLookupVal s1 n t = configLookupVal postC n t) :=
  c8_cache_roundtrip postC initState (by decide) (by decide) (by decide)

/-! ## C6: when MJPG-capable devices get MJPG configs -/

/-- A mutation on one tier's profile writes the tag into the cell the
config store references for that name and tier. -/
theorem setTierFormat_hits (s : RegState) (n t f : String) (td : TierDict) (r : ProfRef)
    (h1 : dictGet? s.configs n = some td) (h2 : dictGet? td t = some r) :
    ((setTierFormat s n t f).profHeap r).format = some f := by
  unfold setTierFormat
  simp only [h1, h2]
  simp

/-- A successful registration preserves every config entry that is
already present: seeding only happens for an absent short name, so the
inserted key can never collide with a present one. -/
theorem registerDevice_config_preserved (env : ScanEnv) (s : RegState) (fn sn : String)
    (vds : List Int) (p : Int) (s1 : RegState) (k : String) (x : TierDict)
    (hx : dictGet? s.configs k = some x)
    (h : registerDevice env s fn sn vds p = .ok s1) :
    dictGet? s1.configs k = some x := by
  unfold registerDevice at h
  split at h
  · cases h
    exact hx
  · next hns =>
    have hk : k ≠ sn := by
      intro hk1
      subst hk1
      rw [hx] at hns
      exact hns rfl
    split at h
    · cases h
    · split at h
      · cases h
        rw [setTierFormat_configs, setTierFormat_configs]
        show dictGet? (dictInsert s.configs sn _) k = some x
        rw [dictGet?_dictInsert_ne _ _ _ _ hk]
        exact hx
      · cases h
        show dictGet? (dictInsert s.configs sn _) k = some x
        rw [dictGet?_dictInsert_ne _ _ _ _ hk]
        exact hx

/-- A successful registration leaves the config entry of every other
key untouched. -/
theorem registerDevice_config_lookup_ne (env : ScanEnv) (s : RegState) (fn sn : String)
    (vds : List Int) (p : Int) (s1 : RegState) (k : String) (hk : k ≠ sn)
    (h : registerDevice env s fn sn vds p = .ok s1) :
    dictGet? s1.configs k = dictGet? s.configs k := by
  unfold registerDevice at h
  split at h
  · cases h
    rfl
  · split at h
    · cases h
    · split at h
      · cases h
        rw [setTierFormat_configs, setTierFormat_configs]
        exact dictGet?_dictInsert_ne _ _ _ _ hk
      · cases h
        exact dictGet?_dictInsert_ne _ _ _ _ hk

/-- A successful registration never erases an MJPG format already stored
in a profile cell (its only profile writes set the MJPG tag). -/
theorem registerDevice_heap_mjpg (env : ScanEnv) (s : RegState) (fn sn : String)
    (vds : List Int) (p : Int) (s1 : RegState) (r : ProfRef)
    (hmj : (s.profHeap r).format = some "MJPG")
    (h : registerDevice env s fn sn vds p = .ok s1) :
    (s1.profHeap r).format = some "MJPG" := by
  unfold registerDevice at h
  split at h
  · cases h
    exact hmj
  · split at h
    · cases h
    · next td _ =>
      split at h
      · cases h
        have h1 : ((setTierFormat (seededState env s fn sn vds p td)
            sn "medium_res" "MJPG").profHeap r).format = some "MJPG" := by
          rcases setTierFormat_format_cases (seededState env s fn sn vds p td)
            sn "medium_res" "MJPG" r with hm | hm
          · rw [hm]
            exact hmj
          · exact hm
        rcases setTierFormat_format_cases
          (setTierFormat (seededState env s fn sn vds p td) sn "medium_res" "MJPG")
            sn "high_res" "MJPG" r with hh | hh
        · rw [hh]
          exact h1
        · exact hh
      · cases h
        exact hmj

/-- The two built-in template entries are intact (as in a fresh
registry). -/
def templatesIntact (s : RegState) : Prop :=
  dictGet? s.configs "default" = some defaultTierDict ∧
  dictGet? s.configs "usb" = some usbTierDict

/-- The state records a device at `path` whose short name's config has
MJPG enabled at both higher tiers. -/
def mjpgReady (s : RegState) (path short : String) : Prop :=
  (∃ i, dictGet? s.devices path = some i ∧ i.short_name = short) ∧
  (∃ td, dictGet? s.configs short = some td ∧
    (∃ rm, dictGet? td "medium_res" = some rm ∧ (s.profHeap rm).format = some "MJPG") ∧
    (∃ rh, dictGet? td "high_res" = some rh ∧ (s.profHeap rh).format = some "MJPG"))

/-- Registering an MJPG-capable device under a short name that is not
yet in the config store seeds the entry and enables MJPG on its
`medium_res` and `high_res` tiers. -/
theorem registerDevice_establishes (env : ScanEnv) (s : RegState) (fn sn : String)
    (vds : List Int) (v : Int) (s1 : RegState)
    (hti : templatesIntact s)
    (hnew : dictGet? s.configs sn = none)
    (hmjpg : "MJPG" ∈ getDeviceFormats env ("/dev/video" ++ toString v))
    (h : registerDevice env s fn sn vds v = .ok s1) :
    mjpgReady s1 ("/dev/video" ++ toString v) sn := by
  unfold registerDevice at h
  simp only [hnew, Option.isSome_none, Bool.false_eq_true, if_false] at h
  by_cases hc : (strContains fn "USB" || strContains fn "usb") = true
  · have htk : dictGet? s.configs (templateKeyFor fn) = some usbTierDict := by
      unfold templateKeyFor
      rw [if_pos hc]
      exact hti.2
    simp only [htk] at h
    rw [if_pos hmjpg] at h
    cases h
    refine ⟨⟨⟨fn, sn, v, vds, getDeviceFormats env ("/dev/video" ++ toString v)⟩, ?_, rfl⟩,
      usbTierDict, ?_, ⟨4, rfl, ?_⟩, ⟨5, rfl, ?_⟩⟩
    · rw [setTierFormat_devices, setTierFormat_devices]
      exact dictGet?_dictInsert_self _ _ _
    · rw [setTierFormat_configs, setTierFormat_configs]
      exact dictGet?_dictInsert_self _ _ _
    · rcases setTierFormat_format_cases
        (setTierFormat (seededState env s fn sn vds v usbTierDict) sn "medium_res" "MJPG")
          sn "high_res" "MJPG" 4 with hh | hh
      · rw [hh]
        exact setTierFormat_hits _ _ _ _ usbTierDict 4 (dictGet?_dictInsert_self _ _ _) rfl
      · exact hh
    · refine setTierFormat_hits _ _ _ _ usbTierDict 5 ?_ rfl
      rw [setTierFormat_configs]
      exact dictGet?_dictInsert_self _ _ _
  · have htk : dictGet? s.configs (templateKeyFor fn) = some defaultTierDict := by
      unfold templateKeyFor
      rw [if_neg hc]
      exact hti.1
    simp only [htk] at h
    rw [if_pos hmjpg] at h
    cases h
    refine ⟨⟨⟨fn, sn, v, vds, getDeviceFormats env ("/dev/video" ++ toString v)⟩, ?_, rfl⟩,
      defaultTierDict, ?_, ⟨1, rfl, ?_⟩, ⟨2, rfl, ?_⟩⟩
    · rw [setTierFormat_devices, setTierFormat_devices]
      exact dictGet?_dictInsert_self _ _ _
    · rw [setTierFormat_configs, setTierFormat_configs]
      exact dictGet?_dictInsert_self _ _ _
    · rcases setTierFormat_format_cases
        (setTierFormat (seededState env s fn sn vds v defaultTierDict) sn "medium_res" "MJPG")
          sn "high_res" "MJPG" 1 with hh | hh
      · rw [hh]
        exact setTierFormat_hits _ _ _ _ defaultTierDict 1 (dictGet?_dictInsert_self _ _ _) rfl
      · exact hh
    · refine setTierFormat_hits _ _ _ _ defaultTierDict 2 ?_ rfl
      rw [setTierFormat_configs]
      exact dictGet?_dictInsert_self _ _ _

/-- Registering any device with a different primary path preserves
`mjpgReady`: the ready device's record is keyed elsewhere, its config
entry is present and hence never reseeded over, and profile writes only
set the MJPG tag. -/
theorem registerDevice_preserves (env : ScanEnv) (s : RegState) (fn sn : String)
    (vds : List Int) (v : Int) (s1 : RegState) (path short : String)
    (hmr : mjpgReady s path short)
    (hpath : ("/dev/video" ++ toString v) ≠ path)
    (h : registerDevice env s fn sn vds v = .ok s1) :
    mjpgReady s1 path short := by
  obtain ⟨⟨i, hi, his⟩, td, htd, ⟨rm, hrm, hrmf⟩, ⟨rh, hrh, hrhf⟩⟩ := hmr
  refine ⟨⟨i, ?_, his⟩, td, ?_, ⟨rm, hrm, ?_⟩, ⟨rh, hrh, ?_⟩⟩
  · rw [registerDevice_ok_devices env s fn sn vds v s1 h,
      dictGet?_dictInsert_ne _ _ _ _ (Ne.symm hpath)]
    exact hi
  · exact registerDevice_config_preserved env s fn sn vds v s1 short td htd h
  · exact registerDevice_heap_mjpg env s fn sn vds v s1 rm hrmf h
  · exact registerDevice_heap_mjpg env s fn sn vds v s1 rh hrhf h

/-- The block loop distributes over list append. -/
theorem processBlocks_append (env : ScanEnv) (l1 : List String) :
    ∀ (l2 : List String) (s : RegState),
    processBlocks env s (l1 ++ l2) =
      match processBlocks env s l1 with
      | .ok s1 => processBlocks env s1 l2
      | .error e => .error e := by
  induction l1 with
  | nil => intro l2 s; rfl
  | cons b rest ih =>
    intro l2 s
    simp only [List.cons_append, processBlocks]
    cases processBlock env s b with
    | error s1 => rfl
    | ok s1 => exact ih l2 s1

/-- Processing a block list neither disturbs the built-in templates
(present entries are never reseeded over) nor adds config keys other
than the short names of the registered blocks. -/
theorem processBlocks_keys (env : ScanEnv) (bs : List String) : ∀ (s s1 : RegState),
    processBlocks env s bs = .ok s1 →
    templatesIntact s →
    templatesIntact s1 ∧
    (∀ k, (dictGet? s1.configs k).isSome = true →
      (dictGet? s.configs k).isSome = true ∨
      ∃ c ∈ bs, ∃ pc : String × String, blockReg? c = some pc ∧ pc.2 = k) := by
  induction bs with
  | nil =>
    intro s s1 h hti
    cases h
    exact ⟨hti, fun k hk => Or.inl hk⟩
  | cons b rest ih =>
    intro s s1 h hti
    simp only [processBlocks] at h
    cases hpb : processBlock env s b with
    | error sE => rw [hpb] at h; cases h
    | ok sM =>
      rw [hpb] at h
      have hstep : templatesIntact sM ∧ (∀ k, (dictGet? sM.configs k).isSome = true →
          (dictGet? s.configs k).isSome = true ∨
          ∃ pc : String × String, blockReg? b = some pc ∧ pc.2 = k) := by
        unfold processBlock at hpb
        cases hbl : blockLines b with
        | nil =>
          simp only [hbl] at hpb
          cases hpb
          exact ⟨hti, fun k hk => Or.inl hk⟩
        | cons first rest2 =>
          simp only [hbl] at hpb
          cases hpv : parseVideoLines rest2 with
          | error e => rw [hpv] at hpb; cases hpb
          | ok ids =>
            rw [hpv] at hpb
            cases ids with
            | nil =>
              cases hpb
              exact ⟨hti, fun k hk => Or.inl hk⟩
            | cons v more =>
              have hbr : blockReg? b
                  = some ("/dev/video" ++ toString v, shortOf (parseFullName first)) := by
                unfold blockReg? blockIds blockShortName blockFullName
                rw [hbl]
                simp [hpv]
              constructor
              · exact ⟨registerDevice_config_preserved env s _ _ _ _ sM "default" _ hti.1 hpb,
                  registerDevice_config_preserved env s _ _ _ _ sM "usb" _ hti.2 hpb⟩
              · intro k hk
                by_cases hks : k = shortOf (parseFullName first)
                · exact Or.inr ⟨_, hbr, hks.symm⟩
                · rw [registerDevice_config_lookup_ne env s _ _ _ _ sM k hks hpb] at hk
                  exact Or.inl hk
      obtain ⟨htiM, hkeysM⟩ := hstep
      obtain ⟨hti1, hkeys1⟩ := ih sM s1 h htiM
      refine ⟨hti1, fun k hk => ?_⟩
      rcases hkeys1 k hk with hk1 | ⟨c, hc, pc, hpc, hpck⟩
      · rcases hkeysM k hk1 with hk2 | ⟨pc, hpc, hpck⟩
        · exact Or.inl hk2
        · exact Or.inr ⟨b, List.mem_cons_self _ _, pc, hpc, hpck⟩
      · exact Or.inr ⟨c, List.mem_cons_of_mem _ hc, pc, hpc, hpck⟩

/-- Processing blocks that all register other primary paths preserves
`mjpgReady` (their short names are unconstrained: a clash with the
ready device's short name just skips the seeding). -/
theorem processBlocks_preserve (env : ScanEnv) (bs : List String) :
    ∀ (s s1 : RegState) (path short : String),
    processBlocks env s bs = .ok s1 →
    mjpgReady s path short →
    (∀ c ∈ bs, ∀ pc : String × String, blockReg? c = some pc → pc.1 ≠ path) →
    mjpgReady s1 path short := by
  induction bs with
  | nil =>
    intro s s1 path short h hmr _
    cases h
    exact hmr
  | cons b rest ih =>
    intro s s1 path short h hmr hdis
    simp only [processBlocks] at h
    cases hpb : processBlock env s b with
    | error sE => rw [hpb] at h; cases h
    | ok sM =>
      rw [hpb] at h
      have hM : mjpgReady sM path short := by
        unfold processBlock at hpb
        cases hbl : blockLines b with
        | nil =>
          simp only [hbl] at hpb
          cases hpb
          exact hmr
        | cons first rest2 =>
          simp only [hbl] at hpb
          cases hpv : parseVideoLines rest2 with
          | error e => rw [hpv] at hpb; cases hpb
          | ok ids =>
            rw [hpv] at hpb
            cases ids with
            | nil =>
              cases hpb
              exact hmr
            | cons v more =>
              have hbr : blockReg? b
                  = some ("/dev/video" ++ toString v, shortOf (parseFullName first)) := by
                unfold blockReg? blockIds blockShortName blockFullName
                rw [hbl]
                simp [hpv]
              have hd := hdis b (List.mem_cons_self _ _) _ hbr
              exact registerDevice_preserves env s _ _ _ _ sM path short hmr hd hpb
      exact ih sM s1 path short h hM (fun c hc => hdis c (List.mem_cons_of_mem _ hc))

/-- A `/dev/video...` path is never an all-digit identifier. -/
theorem pyIsDigit_path (t : String) : pyIsDigit ("/dev/video" ++ t) = false := by
  unfold pyIsDigit
  have hdata : ("/dev/video" ++ t).toList = "/dev/video".toList ++ t.toList :=
    String.data_append _ _
  rw [hdata, List.all_append]
  have h1 : "/dev/video".toList.all Char.isDigit = false := by decide
  rw [h1]
  simp

/-- A `/dev/video...` path starts with the device-path prefix. -/
theorem pyStartsWith_path (t : String) : pyStartsWith ("/dev/video" ++ t) "/dev/video" = true := by
  unfold pyStartsWith
  rw [show ("/dev/video" ++ t).toList = "/dev/video".toList ++ t.toList from
    String.data_append _ _]
  exact List.isPrefixOf_iff_prefix.mpr (List.prefix_append _ _)

/-- A fresh allocation reads back the stored profile. -/
theorem allocProf_read (s : RegState) (p : Profile) :
    (allocProf s p).1.profHeap (allocProf s p).2 = p := by
  unfold allocProf
  simp

/-- On an `mjpgReady` state, `get_camera_config` for the device's
primary path returns MJPG at both higher tiers. -/
theorem getCameraConfig_mjpgReady (env : ScanEnv) (s : RegState) (v : Int) (short : String)
    (hmr : mjpgReady s ("/dev/video" ++ toString v) short) :
    (getCameraConfig env s ("/dev/video" ++ toString v) "medium_res").toOption.map
      (fun p => (p.1.profHeap p.2).format) = some (some "MJPG") ∧
    (getCameraConfig env s ("/dev/video" ++ toString v) "high_res").toOption.map
      (fun p => (p.1.profHeap p.2).format) = some (some "MJPG") := by
  obtain ⟨⟨i, hi, his⟩, td, htd, ⟨rm, hrm, hrmf⟩, ⟨rh, hrh, hrhf⟩⟩ := hmr
  have hie : s.devices.isEmpty = false := by
    cases hd : s.devices with
    | nil => rw [hd] at hi; exact Option.noConfusion hi
    | cons a l => rfl
  have hinfo : getCameraInfoCore s ("/dev/video" ++ toString v) = .ok (some i) := by
    unfold getCameraInfoCore
    rw [pyIsDigit_path, pyStartsWith_path]
    simp [hi]
  constructor
  · unfold getCameraConfig
    have hb1 : (dictGet? s.configs i.short_name).bind (fun td => dictGet? td "medium_res")
        = some rm := by
      rw [his, htd]
      exact hrm
    simp only [hie, Bool.false_eq_true, if_false, hinfo, hb1]
    show some ((allocProf s (s.profHeap rm)).1.profHeap (allocProf s (s.profHeap rm)).2).format
      = some (some "MJPG")
    rw [allocProf_read, hrmf]
  · unfold getCameraConfig
    have hb1 : (dictGet? s.configs i.short_name).bind (fun td => dictGet? td "high_res")
        = some rh := by
      rw [his, htd]
      exact hrh
    simp only [hie, Bool.false_eq_true, if_false, hinfo, hb1]
    show some ((allocProf s (s.profHeap rh)).1.profHeap (allocProf s (s.profHeap rh)).2).format
      = some (some "MJPG")
    rw [allocProf_read, hrhf]

theorem initState_templatesIntact : templatesIntact initState := ⟨rfl, rfl⟩

theorem initState_config_keys (k : String)
    (h : (dictGet? initState.configs k).isSome = true) : k = "default" ∨ k = "usb" := by
  by_cases h1 : k = "default"
  · exact Or.inl h1
  · by_cases h2 : k = "usb"
    · exact Or.inr h2
    · exfalso
      rw [dictGet?_eq_none_of_not_mem] at h
      · exact Bool.noConfusion h
      · intro hm
        simp [initState, DEFAULT_CAMERA_CONFIGS] at hm
        rcases hm with hm | hm
        · exact h1 hm
        · exact h2 hm

/-- **C6** (amended).  For every device registered by a clean primary
scan from a fresh registry whose supported formats include MJPG and
whose short name is fresh for it — the short name is neither `default`
nor `usb` and no earlier block of the scan registers the same short
name, so the device's config entry is seeded by the very block that
registers it — and whose primary path no later block registers again,
`get_camera_config` for the device's primary path at `medium_res` and
at `high_res` returns a profile with format MJPG.  (The original claim
fails when the short name was already present, as `c6_counterexample`
shows.) -/
theorem c6_mjpg_for_fresh_short_names (env : ScanEnv) (out : String) (s1 : RegState)
    (pre post : List String) (b path short : String)
    (hsplit : pySplitOn out "\n\n" = pre ++ b :: post)
    (hrun : processBlocks env initState (pySplitOn out "\n\n") = .ok s1)
    (hbr : blockReg? b = some (path, short))
    (hshortd : short ≠ "default")
    (hshortu : short ≠ "usb")
    (hpre : ∀ c ∈ pre, ∀ pc : String × String, blockReg? c = some pc → pc.2 ≠ short)
    (hpost : ∀ c ∈ post, ∀ pc : String × String, blockReg? c = some pc → pc.1 ≠ path)
    (hmjpg : "MJPG" ∈ getDeviceFormats env path) :
    (getCameraConfig env s1 path "medium_res").toOption.map
      (fun p => (p.1.profHeap p.2).format) = some (some "MJPG") ∧
    (getCameraConfig env s1 path "high_res").toOption.map
      (fun p => (p.1.profHeap p.2).format) = some (some "MJPG") := by
  rw [hsplit] at hrun
  rw [processBlocks_append] at hrun
  cases hpre2 : processBlocks env initState pre with
  | error e => rw [hpre2] at hrun; cases hrun
  | ok sP =>
    rw [hpre2] at hrun
    simp only [processBlocks] at hrun
    cases hpb : processBlock env sP b with
    | error e => rw [hpb] at hrun; cases hrun
    | ok sB =>
      rw [hpb] at hrun
      obtain ⟨htiP, hkeysP⟩ := processBlocks_keys env pre initState sP hpre2
        initState_templatesIntact
      have hnew : dictGet? sP.configs short = none := by
        cases ho : dictGet? sP.configs short with
        | none => rfl
        | some x =>
          exfalso
          rcases hkeysP short (by rw [ho]; rfl) with hinit | ⟨c, hc, pc, hpc, hpck⟩
          · rcases initState_config_keys short hinit with he | he
            · exact hshortd he
            · exact hshortu he
          · exact hpre c hc _ hpc hpck
      obtain ⟨first, rest2, v, more, hbl, hpv, hpath, hshorteq⟩ :
          ∃ first rest2 v more, blockLines b = first :: rest2 ∧
            parseVideoLines rest2 = .ok (v :: more) ∧
            path = "/dev/video" ++ toString v ∧
            short = shortOf (parseFullName first) := by
        unfold blockReg? blockIds at hbr
        cases hbl : blockLines b with
        | nil => simp [hbl, parseVideoLines] at hbr
        | cons first rest2 =>
          simp only [hbl, List.tail_cons] at hbr
          cases hpv : parseVideoLines rest2 with
          | error e => rw [hpv] at hbr; cases hbr
          | ok ids =>
            rw [hpv] at hbr
            cases ids with
            | nil => cases hbr
            | cons v more =>
              have hpair := Prod.mk.injEq .. ▸ Option.some.inj hbr
              refine ⟨first, rest2, v, more, rfl, hpv, hpair.1.symm, ?_⟩
              rw [← hpair.2]
              unfold blockShortName blockFullName
              rw [hbl]
              rfl
      have hreg : registerDevice env sP (parseFullName first) (shortOf (parseFullName first))
          (v :: more) v = .ok sB := by
        unfold processBlock at hpb
        simp only [hbl] at hpb
        rw [hpv] at hpb
        exact hpb
      have hmrB : mjpgReady sB path short := by
        rw [hpath, hshorteq]
        refine registerDevice_establishes env sP (parseFullName first) _ (v :: more) v sB
          htiP ?_ ?_ hreg
        · rw [← hshorteq]
          exact hnew
        · rw [← hpath]
          exact hmjpg
      have hmr1 : mjpgReady s1 path short :=
        processBlocks_preserve env post sB s1 path short hrun hmrB
          (fun c hc pc hpc => hpost c hc _ hpc)
      rw [hpath] at hmr1 ⊢
      exact getCameraConfig_mjpgReady env s1 v short hmr1

/-- Witness for `c6_mjpg_for_fresh_short_names` on the `envC` scan. -/
theorem c6_mjpg_for_fresh_short_names_witness :
    (getCameraConfig envC postC "/dev/video0" "medium_res").toOption.map
      (fun p => (p.1.profHeap p.2).format) = some (some "MJPG") ∧
    (getCameraConfig envC postC "/dev/video0" "high_res").toOption.map
      (fun p => (p.1.profHeap p.2).format) = some (some "MJPG") :=
  c6_mjpg_for_fresh_short_names envC "MyCam:\n\t/dev/video0" postC
    [] [] "MyCam:\n\t/dev/video0" "/dev/video0" "MyCam"
    (by rfl) (by rfl) (by rfl) (by decide) (by decide)
    (fun c hc => absurd hc (List.not_mem_nil c))
    (fun c hc => absurd hc (List.not_mem_nil c))
    (by decide)

end CameraHD
